import Mathlib

/-!
A verification development for the `stipulate` automated-grading tool.

The Rust sources are embedded shallowly:

* `src/test/process.rs` — the bounded-timeout process runner
  (`test_output_against_strings`, `read_from_stream`, `TestAnswer`);
* `src/test/mod.rs` — the orchestrator (`test_from_configuration`,
  `test_student_against_test_case`, `TestCase`);
* `src/conf/java.rs`, `src/conf/python.rs` — the backend configurations
  (`JavaConfig::from_toml`, `PythonConfig::from_toml`, the `Config`-trait
  methods).

Operating-system effects (spawning a child process, reading directories and
files) are modelled by explicit data: a `ChildBehavior` describes everything
the runner can observe about one spawned child, and a `World` describes the
file system seen by one grading run.  Rust `panic!`/`expect` aborts are a
distinct constructor (`OrchResult.panic`) so that they can be told apart from
`Result::Err` propagation (`OrchResult.err`).
-/

namespace Stipulate

/-- Embeds `TestAnswer` from src/test/process.rs (lines 19-33): the categorical
outcome of running one test. -/
inductive TestAnswer where
  | Success
  | Failure
  | Timeout
  | FailWithMessage (msg : String)
  | CompileError
deriving DecidableEq

/-- The command built by the spawn chain of `test_output_against_strings`
(src/test/process.rs lines 55-59): `Command::new(cmd).args(args)
.stdin(Stdio::piped()).stdout(Stdio::piped()).spawn()`.  The chain contains
no `.env`/`.envs` call, so the recorded environment overrides are empty: the
child inherits the host environment unchanged. -/
structure SpawnedCommand where
  program : String
  args : List String
  env_overrides : List (String × String)
deriving DecidableEq

/-- Everything the runner can observe about one spawned child process.
`exit_time` is the instant (in abstract time units, same units as the
timeout) at which the child exits on its own; `none` means it never exits.
`stdout_utf8 = none` means the bytes on standard output are not valid
UTF-8. -/
structure ChildBehavior where
  spawn_err : Option String
  stdin_ok : Bool
  write_err : Option String
  exit_time : Option Nat
  wait_err : Option String
  stdout_ok : Bool
  read_err : Option String
  stdout_utf8 : Option String
deriving DecidableEq

/-- Process-lifecycle facts recorded by one run of the runner. -/
structure RunState where
  spawned : Option SpawnedCommand
  killed : Bool
  reaped : Bool
deriving DecidableEq

instance {ε α : Type} [DecidableEq ε] [DecidableEq α] :
    DecidableEq (Except ε α) := fun x y =>
  match x, y with
  | .ok a, .ok b =>
    if h : a = b then isTrue (by rw [h])
    else isFalse (by intro hc; cases hc; exact h rfl)
  | .error a, .error b =>
    if h : a = b then isTrue (by rw [h])
    else isFalse (by intro hc; cases hc; exact h rfl)
  | .ok _, .error _ => isFalse (by intro hc; cases hc)
  | .error _, .ok _ => isFalse (by intro hc; cases hc)

/-- What the runner call does: terminate with a `Result<TestAnswer, _>`
value, or block forever (`child.wait()` on a child that never exits, with no
timeout configured). -/
inductive RunOutput where
  | term (r : Except String TestAnswer)
  | hangs
deriving DecidableEq

/-- Embeds `read_from_stream` from src/test/process.rs (lines 9-13):
`read_to_end` may fail with an I/O error, and `String::from_utf8` fails on
non-UTF-8 bytes. -/
def read_from_stream (readErr : Option String) (utf8 : Option String) :
    Except String String :=
  match readErr with
  | some e => .error e
  | none =>
    match utf8 with
    | none => .error "invalid utf-8"
    | some s => .ok s

/-- The tail of `test_output_against_strings` after the wait succeeds
(src/test/process.rs lines 79-88): drain standard output via
`read_from_stream` and compare against `expected_output` with plain string
equality.  The wait that just returned reaped the child. -/
def drain_and_compare (st : RunState) (b : ChildBehavior) (expected : String) :
    RunState × RunOutput :=
  let st := { st with reaped := true }
  if b.stdout_ok then
    match read_from_stream b.read_err b.stdout_utf8 with
    | .error e => (st, .term (.error e))
    | .ok out =>
      (st, .term (.ok (if out = expected then .Success else .Failure)))
  else (st, .term (.error "Error grabbing child stdout"))

/-- Embeds `test_output_against_strings` from src/test/process.rs (lines 48-89).
Spawn the child (no environment manipulation appears in the builder chain),
write `input` to its stdin, wait — bounded by `timeout` when one is
configured, killing and reaping the child on expiry and returning `Timeout`
before any output is read — then drain stdout and compare with
`expected_output`.  Note the signature has no environment parameter, exactly
as in the source. -/
def test_output_against_strings (cmd : String) (args : List String)
    (input : String) (expected_output : String) (timeout : Option Nat)
    (b : ChildBehavior) : RunState × RunOutput :=
  let _ := input
  match b.spawn_err with
  | some e => ({ spawned := none, killed := false, reaped := false }, .term (.error e))
  | none =>
    let st : RunState :=
      { spawned := some { program := cmd, args := args, env_overrides := [] },
        killed := false, reaped := false }
    if b.stdin_ok then
      match b.write_err with
      | some e => (st, .term (.error e))
      | none =>
        match timeout with
        | some delay =>
          match b.wait_err with
          | some e => (st, .term (.error e))
          | none =>
            match b.exit_time with
            | some t =>
              if t ≤ delay then drain_and_compare st b expected_output
              else ({ st with killed := true, reaped := true }, .term (.ok .Timeout))
            | none => ({ st with killed := true, reaped := true }, .term (.ok .Timeout))
        | none =>
          match b.wait_err with
          | some e => (st, .term (.error e))
          | none =>
            match b.exit_time with
            | some _ => drain_and_compare st b expected_output
            | none => (st, .hangs)
    else (st, .term (.error "Error grabbing child stdin"))

/-- A child behavior that exits immediately and cleanly with the given
stdout text: used to instantiate theorems at concrete inputs. -/
def cleanChild (out : String) : ChildBehavior :=
  { spawn_err := none, stdin_ok := true, write_err := none,
    exit_time := some 0, wait_err := none, stdout_ok := true,
    read_err := none, stdout_utf8 := some out }

/-- The environment the child process actually runs with: the host
environment with the command's explicit overrides taking precedence
(`List.lookup` finds an override first). -/
def child_env (host : List (String × String)) (sc : SpawnedCommand) :
    List (String × String) :=
  sc.env_overrides ++ host

/-- Embeds `std::time::Duration`, restricted to the constructor used by the
sources: a number of whole seconds plus a sub-second nanosecond count. -/
structure Duration where
  secs : Nat
  nanos : Nat
deriving DecidableEq

/-- Embeds `Duration::new(secs, nanos)`: nanoseconds at or above 10^9 carry over
into seconds. -/
def Duration.new (secs nanos : Nat) : Duration :=
  { secs := secs + nanos / 1000000000, nanos := nanos % 1000000000 }

/-- Rust `i64 as u64`: two's-complement reinterpretation, i.e. reduction
modulo 2^64. -/
def i64_as_u64 (i : Int) : Nat :=
  (i % (2 : Int) ^ 64).toNat

/-- Truncation of a rational toward zero, as Rust float-to-integer casts
truncate. -/
def rat_trunc (q : ℚ) : Int :=
  if q < 0 then -⌊-q⌋ else ⌊q⌋

/-- Rust `f64 as u64`.  Per the Rust reference, float-to-integer `as` casts
saturate: negative values go to 0 and values at or above 2^64 go to
`u64::MAX`; in between the value is truncated toward zero.  Finite float
values are modelled as exact rationals. -/
def f64_as_u64 (q : ℚ) : Nat :=
  if q < 0 then 0 else min (rat_trunc q).toNat (2 ^ 64 - 1)

/-- Rust `f64 as u32`, saturating exactly as `f64_as_u64` does. -/
def f64_as_u32 (q : ℚ) : Nat :=
  if q < 0 then 0 else min (rat_trunc q).toNat (2 ^ 32 - 1)

/-- Rust `%` on floats: remainder of the truncated division, with the sign
of the dividend. -/
def rust_rem (a b : ℚ) : ℚ :=
  a - b * (rat_trunc (a / b) : ℚ)

/-- The fragment of `toml::Value` the configuration code consumes.  A float
value is carried as an exact rational (every finite `f64` is one). -/
inductive Toml where
  | str (s : String)
  | int (i : Int)
  | float (f : ℚ)
  | bool (b : Bool)
  | datetime (d : String)
  | arr (xs : List Toml)
  | table (kvs : List (String × Toml))

/-- Embeds `toml::Value::get`: table lookup; `None` on any non-table value. -/
def Toml.get : Toml → String → Option Toml
  | .table kvs, key => kvs.lookup key
  | _, _ => none

/-- Rendering of one scalar `args` element with `format!("{}", v)`
(src/conf/java.rs lines 87-98, src/conf/python.rs lines 98-109): strings
pass through, nested arrays and tables are rejected, other scalars are
displayed.  The exact Rust `Display` text of an `f64` is not modelled (the
rational is rendered instead); no claim depends on that rendering. -/
def coerce_scalar : Toml → Except String String
  | .str s => .ok s
  | .arr _ => .error "Args may not contain nested structures"
  | .table _ => .error "Args may not contain nested structures"
  | .int i => .ok (toString i)
  | .float f => .ok (toString f)
  | .bool b => .ok (toString b)
  | .datetime d => .ok d

/-- Embeds the `collect` of the args array (first error
wins. -/
def coerce_args : List Toml → Except String (List String)
  | [] => .ok []
  | v :: rest =>
    match coerce_scalar v with
    | .error e => .error e
    | .ok s =>
      match coerce_args rest with
      | .error e => .error e
      | .ok ss => .ok (s :: ss)

/-- Embeds `DEFAULT_TIMEOUT` from src/conf/java.rs line 10 and
src/conf/python.rs line 7: five seconds. -/
def DEFAULT_TIMEOUT : Nat := 5

/-- Embeds `DEFAULT_PYTHON` from src/conf/python.rs lines 9-13; the Unix value is
used here ("python" is substituted on the Windows build). -/
def DEFAULT_PYTHON : String := "python3"

/-- Embeds `JavaConfig` from src/conf/java.rs lines 15-22. -/
structure JavaConfig where
  name : String
  test_data_dir : String
  timeout : Option Duration
  main_class : String
  args : List String
  target_dir : String
deriving DecidableEq

/-- Embeds `JavaConfig::from_toml` (src/conf/java.rs lines 41-121): field-by-field
validation; any violation produces a descriptive error and no config. -/
def JavaConfig.from_toml (conf : Toml) : Except String JavaConfig := do
  let name ← match conf.get "name" with
    | some (.str s) => Except.ok s
    | none => Except.error "Missing \"name\" field"
    | _ => Except.error "\"name\" field should be a string"
  let test_data_dir ← match conf.get "tests_dir" with
    | some (.str s) => Except.ok s
    | none => Except.error "Missing \"tests_dir\" field"
    | _ => Except.error "\"tests_dir\" field should be a string"
  let main_class ← match conf.get "main_class" with
    | some (.str s) => Except.ok s
    | none => Except.error "Missing \"main_class\" field"
    | _ => Except.error "\"main_class\" field should be a string"
  let timeout ← match conf.get "timeout" with
    | some (.int seconds) => Except.ok (some (Duration.new (i64_as_u64 seconds) 0))
    | some (.float seconds) =>
      Except.ok (some (Duration.new (f64_as_u64 seconds)
        (f64_as_u32 (rust_rem seconds 1 * 1000000000))))
    | none => Except.ok (some (Duration.new DEFAULT_TIMEOUT 0))
    | some (.bool true) => Except.ok (some (Duration.new DEFAULT_TIMEOUT 0))
    | some (.bool false) => Except.ok none
    | _ => Except.error "\"timeout\", if specified, should be a number or boolean"
  let args ← match conf.get "args" with
    | none => Except.ok []
    | some (.arr arr) => coerce_args arr
    | _ => Except.error "\"args\", if specified, must be an array"
  let target_dir ← match conf.get "target_dir" with
    | some (.str s) => Except.ok s
    | none => Except.error "Missing \"target_dir\" field"
    | _ => Except.error "\"target_dir\" field must be a string"
  Except.ok { name, test_data_dir, timeout, main_class, args, target_dir }

/-- Embeds `Config::command` for `JavaConfig` (src/conf/java.rs lines 137-139). -/
def JavaConfig.command (_c : JavaConfig) (_student_dir : String) : String :=
  "java"

/-- Embeds `Config::args` for `JavaConfig` (src/conf/java.rs lines 141-145): the
main class name first, then the configured extra arguments. -/
def JavaConfig.cmd_args (c : JavaConfig) (_student_dir : String) : List String :=
  c.main_class :: c.args

/-- Embeds `Config::env_vars` for `JavaConfig` (src/conf/java.rs lines 172-176): a
single CLASSPATH entry pointing at the submission directory. -/
def JavaConfig.env_vars (_c : JavaConfig) (student_dir : String) :
    List (String × String) :=
  [("CLASSPATH", student_dir)]

/-- Embeds `PythonConfig` from src/conf/python.rs lines 18-26. -/
structure PythonConfig where
  name : String
  test_data_dir : String
  python_version : String
  timeout : Option Duration
  filename : String
  args : List String
  target_dir : String
deriving DecidableEq

/-- Embeds `PythonConfig::from_toml` (src/conf/python.rs lines 45-133). -/
def PythonConfig.from_toml (conf : Toml) : Except String PythonConfig := do
  let name ← match conf.get "name" with
    | some (.str s) => Except.ok s
    | none => Except.error "Missing \"name\" field"
    | _ => Except.error "\"name\" field should be a string"
  let test_data_dir ← match conf.get "tests_dir" with
    | some (.str s) => Except.ok s
    | none => Except.error "Missing \"tests_dir\" field"
    | _ => Except.error "\"tests_dir\" field should be a string"
  let python_version ← match conf.get "version" with
    | some (.str s) => Except.ok s
    | none => Except.ok DEFAULT_PYTHON
    | _ => Except.error "\"version\", if specified, must be a string"
  let timeout ← match conf.get "timeout" with
    | some (.int seconds) => Except.ok (some (Duration.new (i64_as_u64 seconds) 0))
    | some (.float seconds) =>
      Except.ok (some (Duration.new (f64_as_u64 seconds)
        (f64_as_u32 (rust_rem seconds 1 * 1000000000))))
    | none => Except.ok (some (Duration.new DEFAULT_TIMEOUT 0))
    | some (.bool true) => Except.ok (some (Duration.new DEFAULT_TIMEOUT 0))
    | some (.bool false) => Except.ok none
    | _ => Except.error "\"timeout\", if specified, should be a number or false"
  let filename ← match conf.get "file" with
    | some (.str s) => Except.ok s
    | none => Except.error "Missing \"file\" field"
    | _ => Except.error "\"file\" field should be a string"
  let args ← match conf.get "args" with
    | none => Except.ok []
    | some (.arr arr) => coerce_args arr
    | _ => Except.error "\"args\", if specified, must be an array"
  let target_dir ← match conf.get "target_dir" with
    | some (.str s) => Except.ok s
    | none => Except.error "Missing \"target_dir\" field"
    | _ => Except.error "\"target_dir\" field must be a string"
  Except.ok { name, test_data_dir, python_version, timeout, filename, args, target_dir }

/-- Embeds `Config::command` for `PythonConfig` (src/conf/python.rs lines
149-151). -/
def PythonConfig.command (c : PythonConfig) (_student_dir : String) : String :=
  c.python_version

/-- Embeds `Config::args` for `PythonConfig` (src/conf/python.rs lines 153-159):
the script path resolved against the submission directory, then the
configured extra arguments. -/
def PythonConfig.cmd_args (c : PythonConfig) (student_dir : String) :
    List String :=
  (student_dir ++ "/" ++ c.filename) :: c.args

/-- Embeds `Config::do_setup` for `PythonConfig` (src/conf/python.rs lines
161-164): no setup, always succeeds. -/
def PythonConfig.do_setup (_c : PythonConfig) (_student_dir : String) : Bool :=
  true

/-- Embeds `Config::env_vars` for `PythonConfig` (src/conf/python.rs lines
170-173): no extra variables. -/
def PythonConfig.env_vars (_c : PythonConfig) (_student_dir : String) :
    List (String × String) :=
  []

/-- A Java configuration table holding the four required string fields and,
optionally, a timeout value: the shape used to probe timeout parsing. -/
def java_conf_with_timeout (n d m t : String) (tv : Option Toml) : Toml :=
  .table ([("name", .str n), ("tests_dir", .str d), ("main_class", .str m),
    ("target_dir", .str t)] ++
    (match tv with
     | some v => [("timeout", v)]
     | none => []))

/-- A Python configuration table holding the required string fields and,
optionally, a timeout value. -/
def python_conf_with_timeout (n d fl t : String) (tv : Option Toml) : Toml :=
  .table ([("name", .str n), ("tests_dir", .str d), ("file", .str fl),
    ("target_dir", .str t)] ++
    (match tv with
     | some v => [("timeout", v)]
     | none => []))

/-- Embeds `TestCase` from src/test/mod.rs (lines 21-24): one fixture's input and
expected output. -/
structure TestCase where
  input : String
  output : String
deriving DecidableEq

/-- Embeds `StudentResults` (src/test/mod.rs line 37): test-case name mapped to
`Result<TestAnswer, Box<dyn Error>>`, as an association list. -/
abbrev StudentResults := List (String × Except String TestAnswer)

/-- Embeds `ClassResults` (src/test/mod.rs line 39): student name mapped to that
student's results. -/
abbrev ClassResults := List (String × StudentResults)

instance : DecidableEq StudentResults := inferInstance

instance : DecidableEq ClassResults := inferInstance

/-- The observable result of running the orchestrator: a returned
`Result::Ok`, a returned `Result::Err` (the `?` operator), an aborting Rust
panic (`expect`), or divergence (a case that never terminates). -/
inductive OrchResult (α : Type) where
  | ok (a : α)
  | err (e : String)
  | panic (msg : String)
  | hangs

instance {α : Type} [DecidableEq α] : DecidableEq (OrchResult α) := fun x y =>
  match x, y with
  | .ok a, .ok b =>
    if h : a = b then isTrue (by rw [h])
    else isFalse (fun hc => by cases hc; exact h rfl)
  | .err a, .err b =>
    if h : a = b then isTrue (by rw [h])
    else isFalse (fun hc => by cases hc; exact h rfl)
  | .panic a, .panic b =>
    if h : a = b then isTrue (by rw [h])
    else isFalse (fun hc => by cases hc; exact h rfl)
  | .hangs, .hangs => isTrue rfl
  | .ok _, .err _ => isFalse (fun hc => by cases hc)
  | .ok _, .panic _ => isFalse (fun hc => by cases hc)
  | .ok _, .hangs => isFalse (fun hc => by cases hc)
  | .err _, .ok _ => isFalse (fun hc => by cases hc)
  | .err _, .panic _ => isFalse (fun hc => by cases hc)
  | .err _, .hangs => isFalse (fun hc => by cases hc)
  | .panic _, .ok _ => isFalse (fun hc => by cases hc)
  | .panic _, .err _ => isFalse (fun hc => by cases hc)
  | .panic _, .hangs => isFalse (fun hc => by cases hc)
  | .hangs, .ok _ => isFalse (fun hc => by cases hc)
  | .hangs, .err _ => isFalse (fun hc => by cases hc)
  | .hangs, .panic _ => isFalse (fun hc => by cases hc)

/-- Functorial map on the `ok` constructor. -/
def OrchResult.map {α β : Type} (f : α → β) : OrchResult α → OrchResult β
  | .ok a => .ok (f a)
  | .err e => .err e
  | .panic m => .panic m
  | .hangs => .hangs

/-- Embeds `TestType` from src/conf/mod.rs (lines 138-145). -/
inductive TestType where
  | Directory (dir : String)
deriving DecidableEq

/-- The `Config` trait from src/conf/mod.rs (lines 103-132), embedded as a
record of functions (dynamic dispatch with the backend and its captured
state baked in).  `do_setup` covers backend setup effects such as running
javac: the orchestrator only observes the returned boolean. -/
structure Config where
  test_type : TestType
  case_timeout : Option Nat
  target_dir : String
  command : String → String
  args : String → List String
  do_setup : String → Bool
  env_vars : String → List (String × String)

/-- One directory entry of the target directory, as the orchestrator reads
it: `name = none` models a file name that is not valid Unicode
(`file_name().to_str()` returns `None`), `is_dir = none` models a failing
`file_type()` call. -/
structure DirEnt where
  name : Option String
  is_dir : Option Bool
deriving DecidableEq

/-- The file system one grading run observes.  `fixture_entries` models
`fs::read_dir` on the fixture directory (each entry either an error or its
file name, `none` for non-Unicode); `file_contents` models
`File::open(path)` followed by `read_to_string` (errors cover a missing
file, an I/O failure, and non-UTF-8 content); `target_entries` models
`fs::read_dir` on the target directory; `proc` gives the behavior of the
child process spawned for a command, arguments and stdin text. -/
structure World where
  fixture_entries : Except String (List (Except String (Option String)))
  file_contents : String → Except String String
  target_entries : Except String (List (Except String DirEnt))
  proc : String → List String → String → ChildBehavior

/-- One invocation of the process runner as the orchestrator performs it,
including the environment the call site passes along
(src/test/mod.rs lines 60-67). -/
structure RunnerCall where
  cmd : String
  args : List String
  env_vars : List (String × String)
  input : String
  expected : String
  timeout : Option Nat
deriving DecidableEq

/-- Helper for `strip_extension`, working back-to-front over the
characters: keep everything before the last dot that is immediately
followed by a non-dot character; `none` when no such dot exists. -/
def stripExtAux : List Char → Option (List Char)
  | [] => none
  | c :: rest =>
    match stripExtAux rest with
    | some r => some (c :: r)
    | none =>
      match c, rest with
      | '.', d :: _ => if d ≠ '.' then some [] else none
      | _, _ => none

/-- The capture of the regex `(.*)[.][^.]+` applied with leftmost-first,
greedy semantics (src/test/mod.rs lines 84, 97-103): the file name up to
its final extension, or `none` when the name has no extension (then the
entry is skipped).  Modelled for names without newline characters, which
`.` does not match. -/
def strip_extension (s : String) : Option String :=
  (stripExtAux s.data).map (fun cs => String.mk cs)

/-- Helper for `itertools_unique` carrying the set of names already seen. -/
def uniqueAux : List String → List String → List String
  | [], _ => []
  | x :: xs, seen =>
    if x ∈ seen then uniqueAux xs seen else x :: uniqueAux xs (x :: seen)

/-- Itertools `unique()` (src/test/mod.rs line 107): drop duplicates,
keeping the first occurrence. -/
def itertools_unique (l : List String) : List String :=
  uniqueAux l []

/-- The case-discovery `filter_map` of src/test/mod.rs (lines 88-106): a
failed directory entry is skipped, an entry whose name is not Unicode
panics ("Error parsing filename as unicode" via `expect`), and an entry
with a name strips to its case basename — or is skipped when it has no
extension. -/
def discover_cases : List (Except String (Option String)) → OrchResult (List String)
  | [] => .ok []
  | .error _ :: rest => discover_cases rest
  | .ok none :: _ => .panic "Error parsing filename as unicode"
  | .ok (some fname) :: rest =>
    match discover_cases rest with
    | .ok tail =>
      .ok (match strip_extension fname with
        | some b => b :: tail
        | none => tail)
    | r => r

/-- Lift one file read into the orchestrator result: a read error is a
propagated `Result::Err`. -/
def file_result : Except String String → OrchResult String
  | .ok s => .ok s
  | .error e => .err e

/-- Embeds `collect` into a `Result` of a vector: apply `f` left to right, stopping at
the first non-ok result. -/
def collect_results {α β : Type} (f : α → OrchResult β) :
    List α → OrchResult (List β)
  | [] => .ok []
  | a :: rest =>
    match f a with
    | .ok b =>
      match collect_results f rest with
      | .ok bs => .ok (b :: bs)
      | .err e => .err e
      | .panic m => .panic m
      | .hangs => .hangs
    | .err e => .err e
    | .panic m => .panic m
    | .hangs => .hangs

/-- The fixture-loading phase of `test_from_configuration`
(src/test/mod.rs lines 86-133): list the fixture directory, discover case
basenames, deduplicate them, read `<dir>/<case>.in` for every case and then
`<dir>/<case>.out` for every case — any read failure fails the whole load —
and zip the three lists into the `TestCase` mapping. -/
def load_test_data (config : Config) (w : World) :
    OrchResult (List (String × TestCase)) :=
  match config.test_type with
  | .Directory dir =>
    match w.fixture_entries with
    | .error e => .err e
    | .ok fentries =>
      match discover_cases fentries with
      | .ok raw =>
        let cases := itertools_unique raw
        match collect_results
            (fun c => file_result (w.file_contents (dir ++ "/" ++ c ++ ".in")))
            cases with
        | .ok inputs =>
          match collect_results
              (fun c => file_result (w.file_contents (dir ++ "/" ++ c ++ ".out")))
              cases with
          | .ok outputs =>
            .ok (cases.zip ((inputs.zip outputs).map
              (fun p => { input := p.1, output := p.2 })))
          | .err e => .err e
          | .panic m => .panic m
          | .hangs => .hangs
        | .err e => .err e
        | .panic m => .panic m
        | .hangs => .hangs
      | .err e => .err e
      | .panic m => .panic m
      | .hangs => .hangs

/-- The student-directory filter of src/test/mod.rs (lines 134-148): keep
entries that were read successfully, whose `file_type()` succeeded and is a
directory. -/
def list_students (entries : List (Except String DirEnt)) : List DirEnt :=
  entries.filterMap (fun e =>
    match e with
    | .error _ => none
    | .ok ent =>
      match ent.is_dir with
      | some true => some ent
      | _ => none)

/-- Embeds `test_student_against_test_case` from src/test/mod.rs (lines 48-71):
run every case through `test_output_against_strings` and key the result by
case name.  The call site passes the environment map along, so it is
recorded in the invocation trace, but the runner's signature does not
accept it.  A case whose child never terminates makes the whole run
diverge. -/
def test_student_against_test_case (cmd : String) (args : List String)
    (env_vars : List (String × String)) (cases : List (String × TestCase))
    (timeout : Option Nat) (w : World) :
    OrchResult StudentResults × List RunnerCall :=
  match cases with
  | [] => (.ok [], [])
  | (case_name, case_data) :: rest =>
    let call : RunnerCall :=
      { cmd := cmd, args := args, env_vars := env_vars,
        input := case_data.input, expected := case_data.output,
        timeout := timeout }
    match (test_output_against_strings cmd args case_data.input
        case_data.output timeout (w.proc cmd args case_data.input)).2 with
    | .hangs => (.hangs, [call])
    | .term r =>
      let rec_result := test_student_against_test_case cmd args env_vars rest
        timeout w
      (rec_result.1.map (fun l => (case_name, r) :: l),
        call :: rec_result.2)

/-- The per-student closure of `test_from_configuration`
(src/test/mod.rs lines 149-177): panic on a non-Unicode directory name
(`expect` on `path().to_str()`), record `CompileError` for every case and
skip execution when setup fails, otherwise build the command, arguments and
environment and run every case.  The invocation trace is tagged with the
student's name. -/
def process_student (config : Config) (w : World)
    (test_data : List (String × TestCase)) (ent : DirEnt) :
    OrchResult (String × StudentResults) × List (String × RunnerCall) :=
  match ent.name with
  | none => (.panic "Error loading student folder", [])
  | some student_name =>
    let student_path := config.target_dir ++ "/" ++ student_name
    if config.do_setup student_path then
      let ev := config.env_vars student_path
      let res := test_student_against_test_case (config.command student_path)
        (config.args student_path) ev test_data config.case_timeout w
      (res.1.map (fun sr => (student_name, sr)),
        res.2.map (fun c => (student_name, c)))
    else
      (.ok (student_name,
        test_data.map (fun p => (p.1, Except.ok TestAnswer.CompileError))), [])

/-- The fold of all per-student computations into the class map
(src/test/mod.rs lines 149-178): the closure itself never returns an `Err`,
so the collect only stops early on a panic or divergence. -/
def process_students (config : Config) (w : World)
    (test_data : List (String × TestCase)) :
    List DirEnt → OrchResult ClassResults × List (String × RunnerCall)
  | [] => (.ok [], [])
  | ent :: rest =>
    let step := process_student config w test_data ent
    match step.1 with
    | .ok p =>
      let rec_result := process_students config w test_data rest
      (rec_result.1.map (fun cr => p :: cr), step.2 ++ rec_result.2)
    | .err e => (.err e, step.2)
    | .panic m => (.panic m, step.2)
    | .hangs => (.hangs, step.2)

/-- Embeds `test_from_configuration` from src/test/mod.rs (lines 80-181): load the
fixture repository (fatal on failure), list the target directory (fatal on
failure), then process every student submission.  Alongside the class
results it returns the trace of process-runner invocations, tagged by
student name — the shallow embedding of "a ProcessRunner invocation
occurred". -/
def test_from_configuration (config : Config) (w : World) :
    OrchResult ClassResults × List (String × RunnerCall) :=
  match load_test_data config w with
  | .ok test_data =>
    match w.target_entries with
    | .error e => (.err e, [])
    | .ok tentries =>
      process_students config w test_data (list_students tentries)
  | .err e => (.err e, [])
  | .panic m => (.panic m, [])
  | .hangs => (.hangs, [])

/-- A concrete Python-style configuration used to instantiate the
orchestrator theorems: fixture directory "tests", target directory
"students", a five-unit timeout, no setup work, no extra environment. -/
def pyConfig : Config :=
  { test_type := .Directory "tests", case_timeout := some 5,
    target_dir := "students",
    command := fun _ => "python3",
    args := fun d => [d ++ "/main.py"],
    do_setup := fun _ => true,
    env_vars := fun _ => [] }

/-- A concrete healthy world: one fixture case "case1" with input and
expected output "hi", one student directory "alice", every child echoing
"hi". -/
def okWorld : World :=
  { fixture_entries := .ok [.ok (some "case1.in"), .ok (some "case1.out")],
    file_contents := fun p =>
      if p = "tests/case1.in" then .ok "hi"
      else if p = "tests/case1.out" then .ok "hi"
      else .error "No such file or directory",
    target_entries := .ok [.ok { name := some "alice", is_dir := some true }],
    proc := fun _ _ _ => cleanChild "hi" }

/-- Like `pyConfig` but setup fails for the student directory
"students/bob". -/
def setupFailConfig : Config :=
  { pyConfig with do_setup := fun p => p != "students/bob" }

/-- Like `okWorld` but with two student directories, "alice" and "bob". -/
def twoStudentWorld : World :=
  { okWorld with
    target_entries := .ok
      [.ok { name := some "alice", is_dir := some true },
       .ok { name := some "bob", is_dir := some true }] }

/-- Like `okWorld` but the fixture directory lists only "case1.in": the
expected-output file "tests/case1.out" does not exist. -/
def missingOutWorld : World :=
  { okWorld with
    fixture_entries := .ok [.ok (some "case1.in")],
    file_contents := fun p =>
      if p = "tests/case1.in" then .ok "hi"
      else .error "No such file or directory" }

/-- Like `okWorld` but the single entry of the target directory has a
non-Unicode name. -/
def nonUnicodeWorld : World :=
  { okWorld with
    target_entries := .ok [.ok { name := none, is_dir := some true }] }

/-- Like `okWorld` but the fixture directory also holds a stray file
"notes.txt" with no matching "notes.in"/"notes.out" pair. -/
def strayFileWorld : World :=
  { okWorld with
    fixture_entries := .ok
      [.ok (some "case1.in"), .ok (some "case1.out"), .ok (some "notes.txt")] }

/-- Like `twoStudentWorld` but every child spawned for the student "bob"
fails to spawn. -/
def spawnErrWorld : World :=
  { twoStudentWorld with
    proc := fun _ args _ =>
      if args = ["students/bob/main.py"] then
        { cleanChild "hi" with spawn_err := some "No such file or directory (os error 2)" }
      else cleanChild "hi" }

end Stipulate

namespace Stipulate

/-- C1: on a run that exits normally (spawned, stdin written, wait
succeeded, exit within any configured timeout, stdout drained and decoded as
UTF-8 to `out`), the runner returns `Success` iff `out` equals the expected
output character for character, and `Failure` otherwise; in particular an
actual output that differs from the expected output only by a trailing
newline yields `Failure`. -/
theorem c1_exact_comparison (cmd : String) (args : List String)
    (input expected : String) (timeout : Option Nat) (b : ChildBehavior)
    (out : String) (t : Nat)
    (hspawn : b.spawn_err = none) (hstdin : b.stdin_ok = true)
    (hwrite : b.write_err = none) (hwait : b.wait_err = none)
    (hexit : b.exit_time = some t)
    (htime : ∀ d, timeout = some d → t ≤ d)
    (hsout : b.stdout_ok = true) (hread : b.read_err = none)
    (hdec : b.stdout_utf8 = some out) :
    ((test_output_against_strings cmd args input expected timeout b).2 =
        .term (.ok .Success) ↔ out = expected)
    ∧ ((test_output_against_strings cmd args input expected timeout b).2 =
        .term (.ok .Failure) ↔ out ≠ expected)
    ∧ (out = expected ++ "\n" →
        (test_output_against_strings cmd args input expected timeout b).2 =
          .term (.ok .Failure)) := by
  obtain ⟨se, si, we, et, wr, so, re, su⟩ := b
  simp only at hspawn hstdin hwrite hwait hexit hsout hread hdec
  subst hspawn hstdin hwrite hwait hexit hsout hread hdec
  have hmain : (test_output_against_strings cmd args input expected timeout
      ⟨none, true, none, some t, none, true, none, some out⟩).2 =
      .term (.ok (if out = expected then .Success else .Failure)) := by
    cases timeout with
    | none => simp [test_output_against_strings, drain_and_compare, read_from_stream]
    | some d =>
      have hd : t ≤ d := htime d rfl
      simp [test_output_against_strings, drain_and_compare, read_from_stream, hd]
  rw [hmain]
  refine ⟨?_, ?_, ?_⟩
  · constructor
    · intro h
      by_contra hne
      simp [hne] at h
    · intro h; simp [h]
  · constructor
    · intro h
      intro heq
      simp [heq] at h
    · intro h; simp [h]
  · intro h
    have hne : out ≠ expected := by
      rw [h]
      intro hc
      have := congrArg String.length hc
      simp only [String.length_append] at this
      have h1 : ("\n" : String).length = 1 := rfl
      omega
    simp [hne]

/-- Witness for `c1_exact_comparison` at a concrete input: an actual output
of "hi\n" against an expected output of "hi" (trailing-newline difference)
yields `Failure`. -/
theorem c1_witness :
    ((test_output_against_strings "python3" ["dir/echo.py"] "hi" "hi" none
        (cleanChild "hi\n")).2 = .term (.ok .Success) ↔ "hi\n" = "hi")
    ∧ ((test_output_against_strings "python3" ["dir/echo.py"] "hi" "hi" none
        (cleanChild "hi\n")).2 = .term (.ok .Failure) ↔ "hi\n" ≠ "hi")
    ∧ ("hi\n" = "hi" ++ "\n" →
        (test_output_against_strings "python3" ["dir/echo.py"] "hi" "hi" none
          (cleanChild "hi\n")).2 = .term (.ok .Failure)) :=
  c1_exact_comparison "python3" ["dir/echo.py"] "hi" "hi" none
    (cleanChild "hi\n") "hi\n" 0 rfl rfl rfl rfl rfl
    (by intro d h; cases h) rfl rfl rfl

/-- C2: with a timeout configured, a child that has not exited when the
timeout expires gives `Timeout` (never `Success`/`Failure`), the child is
killed and reaped, and the captured output is never compared: the
conclusion holds for every value of the stdout-related fields of the
behavior and of the expected output. -/
theorem c2_timeout (cmd : String) (args : List String)
    (input expected : String) (delay : Nat) (b : ChildBehavior)
    (hspawn : b.spawn_err = none) (hstdin : b.stdin_ok = true)
    (hwrite : b.write_err = none) (hwait : b.wait_err = none)
    (hlate : ∀ t, b.exit_time = some t → delay < t) :
    (test_output_against_strings cmd args input expected (some delay) b).2 =
        .term (.ok .Timeout)
    ∧ (test_output_against_strings cmd args input expected (some delay) b).1.killed = true
    ∧ (test_output_against_strings cmd args input expected (some delay) b).1.reaped = true := by
  obtain ⟨se, si, we, et, wr, so, re, su⟩ := b
  simp only at hspawn hstdin hwrite hwait hlate
  subst hspawn hstdin hwrite hwait
  cases et with
  | none => simp [test_output_against_strings]
  | some t =>
    have ht : delay < t := hlate t rfl
    have ht' : ¬ t ≤ delay := by omega
    simp [test_output_against_strings, ht']

/-- Witness for `c2_timeout`: a child that would exit at time 10 against a
timeout of 2 yields `Timeout`, killed and reaped. -/
theorem c2_witness :
    (test_output_against_strings "sleep" ["10"] "" "Hello, world\n" (some 2)
        { spawn_err := none, stdin_ok := true, write_err := none,
          exit_time := some 10, wait_err := none, stdout_ok := true,
          read_err := none, stdout_utf8 := some "late output" }).2 =
      .term (.ok .Timeout)
    ∧ (test_output_against_strings "sleep" ["10"] "" "Hello, world\n" (some 2)
        { spawn_err := none, stdin_ok := true, write_err := none,
          exit_time := some 10, wait_err := none, stdout_ok := true,
          read_err := none, stdout_utf8 := some "late output" }).1.killed = true
    ∧ (test_output_against_strings "sleep" ["10"] "" "Hello, world\n" (some 2)
        { spawn_err := none, stdin_ok := true, write_err := none,
          exit_time := some 10, wait_err := none, stdout_ok := true,
          read_err := none, stdout_utf8 := some "late output" }).1.reaped = true :=
  c2_timeout "sleep" ["10"] "" "Hello, world\n" 2 _ rfl rfl rfl rfl
    (by intro t h; cases h; omega)

end Stipulate

namespace Stipulate

lemma rat_trunc_of_nonneg {q : ℚ} (h : 0 ≤ q) : rat_trunc q = ⌊q⌋ := by
  unfold rat_trunc
  rw [if_neg (not_lt.mpr h)]

lemma rust_rem_one_of_nonneg {q : ℚ} (h : 0 ≤ q) :
    rust_rem q 1 = q - (⌊q⌋ : ℚ) := by
  unfold rust_rem
  rw [div_one, rat_trunc_of_nonneg h]
  ring

lemma f64_as_u64_of_lt {q : ℚ} (h0 : 0 ≤ q) (h64 : q < 2 ^ 64) :
    f64_as_u64 q = ⌊q⌋.toNat := by
  unfold f64_as_u64
  rw [if_neg (not_lt.mpr h0), rat_trunc_of_nonneg h0]
  have hfl : ⌊q⌋ < (2 : ℤ) ^ 64 := Int.floor_lt.mpr (by exact_mod_cast h64)
  have hfl0 : 0 ≤ ⌊q⌋ := Int.floor_nonneg.mpr h0
  apply min_eq_left
  omega

lemma fract_scaled_bounds (q : ℚ) :
    0 ≤ (q - (⌊q⌋ : ℚ)) * 1000000000
    ∧ (q - (⌊q⌋ : ℚ)) * 1000000000 < 1000000000 := by
  have hr0 : 0 ≤ q - (⌊q⌋ : ℚ) := sub_nonneg.mpr (Int.floor_le q)
  have hr1 : q - (⌊q⌋ : ℚ) < 1 := by
    have := Int.lt_floor_add_one q
    linarith
  constructor
  · positivity
  · nlinarith

lemma f64_as_u32_fract (q : ℚ) :
    f64_as_u32 ((q - (⌊q⌋ : ℚ)) * 1000000000) =
      ⌊(q - (⌊q⌋ : ℚ)) * 1000000000⌋.toNat
    ∧ ⌊(q - (⌊q⌋ : ℚ)) * 1000000000⌋.toNat < 1000000000 := by
  obtain ⟨h90, h91⟩ := fract_scaled_bounds q
  have hfl : ⌊(q - (⌊q⌋ : ℚ)) * 1000000000⌋ < 1000000000 :=
    Int.floor_lt.mpr (by exact_mod_cast h91)
  have hfl0 : 0 ≤ ⌊(q - (⌊q⌋ : ℚ)) * 1000000000⌋ := Int.floor_nonneg.mpr h90
  constructor
  · unfold f64_as_u32
    rw [if_neg (not_lt.mpr h90), rat_trunc_of_nonneg h90]
    apply min_eq_left
    omega
  · omega

lemma floor_nanos_split (q : ℚ) :
    ⌊q⌋ * 1000000000 + ⌊(q - (⌊q⌋ : ℚ)) * 1000000000⌋ = ⌊q * 1000000000⌋ := by
  have heq : q * 1000000000 =
      ((⌊q⌋ * 1000000000 : ℤ) : ℚ) + (q - (⌊q⌋ : ℚ)) * 1000000000 := by
    push_cast
    ring
  rw [heq, Int.floor_int_add]

/-- Evaluation of the timeout field of `JavaConfig::from_toml` on a table
holding all required fields: each `toml::Value` constructor hits the branch
the source gives it. -/
lemma javaTimeoutField_eval (n d m t : String) (v : Option Toml) :
    (JavaConfig.from_toml (java_conf_with_timeout n d m t v)).map
        JavaConfig.timeout =
      match v with
      | some (.int i) => .ok (some (Duration.new (i64_as_u64 i) 0))
      | some (.float q) =>
        .ok (some (Duration.new (f64_as_u64 q)
          (f64_as_u32 (rust_rem q 1 * 1000000000))))
      | none => .ok (some (Duration.new DEFAULT_TIMEOUT 0))
      | some (.bool true) => .ok (some (Duration.new DEFAULT_TIMEOUT 0))
      | some (.bool false) => .ok none
      | some (.str _) =>
        .error "\"timeout\", if specified, should be a number or boolean"
      | some (.datetime _) =>
        .error "\"timeout\", if specified, should be a number or boolean"
      | some (.arr _) =>
        .error "\"timeout\", if specified, should be a number or boolean"
      | some (.table _) =>
        .error "\"timeout\", if specified, should be a number or boolean" := by
  match v with
  | none =>
    simp [JavaConfig.from_toml, java_conf_with_timeout, Toml.get, List.lookup,
      Except.map, bind, Except.bind]
  | some (.int i) =>
    simp [JavaConfig.from_toml, java_conf_with_timeout, Toml.get, List.lookup,
      Except.map, bind, Except.bind]
  | some (.float q) =>
    simp [JavaConfig.from_toml, java_conf_with_timeout, Toml.get, List.lookup,
      Except.map, bind, Except.bind]
  | some (.bool true) =>
    simp [JavaConfig.from_toml, java_conf_with_timeout, Toml.get, List.lookup,
      Except.map, bind, Except.bind]
  | some (.bool false) =>
    simp [JavaConfig.from_toml, java_conf_with_timeout, Toml.get, List.lookup,
      Except.map, bind, Except.bind]
  | some (.str x) =>
    simp [JavaConfig.from_toml, java_conf_with_timeout, Toml.get, List.lookup,
      Except.map, bind, Except.bind]
  | some (.datetime x) =>
    simp [JavaConfig.from_toml, java_conf_with_timeout, Toml.get, List.lookup,
      Except.map, bind, Except.bind]
  | some (.arr x) =>
    simp [JavaConfig.from_toml, java_conf_with_timeout, Toml.get, List.lookup,
      Except.map, bind, Except.bind]
  | some (.table x) =>
    simp [JavaConfig.from_toml, java_conf_with_timeout, Toml.get, List.lookup,
      Except.map, bind, Except.bind]

/-- Same evaluation for `PythonConfig::from_toml` (its error message differs:
"... should be a number or false"). -/
lemma pythonTimeoutField_eval (n d fl t : String) (v : Option Toml) :
    (PythonConfig.from_toml (python_conf_with_timeout n d fl t v)).map
        PythonConfig.timeout =
      match v with
      | some (.int i) => .ok (some (Duration.new (i64_as_u64 i) 0))
      | some (.float q) =>
        .ok (some (Duration.new (f64_as_u64 q)
          (f64_as_u32 (rust_rem q 1 * 1000000000))))
      | none => .ok (some (Duration.new DEFAULT_TIMEOUT 0))
      | some (.bool true) => .ok (some (Duration.new DEFAULT_TIMEOUT 0))
      | some (.bool false) => .ok none
      | some (.str _) =>
        .error "\"timeout\", if specified, should be a number or false"
      | some (.datetime _) =>
        .error "\"timeout\", if specified, should be a number or false"
      | some (.arr _) =>
        .error "\"timeout\", if specified, should be a number or false"
      | some (.table _) =>
        .error "\"timeout\", if specified, should be a number or false" := by
  match v with
  | none =>
    simp [PythonConfig.from_toml, python_conf_with_timeout, Toml.get, List.lookup,
      Except.map, bind, Except.bind]
  | some (.int i) =>
    simp [PythonConfig.from_toml, python_conf_with_timeout, Toml.get, List.lookup,
      Except.map, bind, Except.bind]
  | some (.float q) =>
    simp [PythonConfig.from_toml, python_conf_with_timeout, Toml.get, List.lookup,
      Except.map, bind, Except.bind]
  | some (.bool true) =>
    simp [PythonConfig.from_toml, python_conf_with_timeout, Toml.get, List.lookup,
      Except.map, bind, Except.bind]
  | some (.bool false) =>
    simp [PythonConfig.from_toml, python_conf_with_timeout, Toml.get, List.lookup,
      Except.map, bind, Except.bind]
  | some (.str x) =>
    simp [PythonConfig.from_toml, python_conf_with_timeout, Toml.get, List.lookup,
      Except.map, bind, Except.bind]
  | some (.datetime x) =>
    simp [PythonConfig.from_toml, python_conf_with_timeout, Toml.get, List.lookup,
      Except.map, bind, Except.bind]
  | some (.arr x) =>
    simp [PythonConfig.from_toml, python_conf_with_timeout, Toml.get, List.lookup,
      Except.map, bind, Except.bind]
  | some (.table x) =>
    simp [PythonConfig.from_toml, python_conf_with_timeout, Toml.get, List.lookup,
      Except.map, bind, Except.bind]

/-- C6 (code bug in the source): the Java backend's `env_vars` produces a
CLASSPATH entry for the submission directory, and the orchestrator computes
it, but `test_output_against_strings` has no environment parameter and its
spawn chain applies no environment override — the spawned child runs with
the host environment unchanged, so CLASSPATH is absent whenever the host
lacks it.  The claim that the child's environment contains CLASSPATH is
therefore false of the code. -/
theorem c6_env_vars_dropped :
    JavaConfig.env_vars
        { name := "Test A", test_data_dir := "tests", timeout := some ⟨5, 0⟩,
          main_class := "Main", args := [], target_dir := "students" }
        "students/alice" = [("CLASSPATH", "students/alice")]
    ∧ (test_output_against_strings "java" ["Main"] "1 2\n" "3\n" (some 5)
        (cleanChild "3\n")).1.spawned =
      some { program := "java", args := ["Main"], env_overrides := [] }
    ∧ (child_env [("PATH", "/usr/bin")]
        { program := "java", args := ["Main"], env_overrides := [] }).lookup
        "CLASSPATH" = none := by
  refine ⟨rfl, ?_, by decide⟩
  decide

/-- C9: the timeout field of a backend configuration is interpreted as — a
nonnegative integer or fractional number of seconds (the fractional part
truncated to whole nanoseconds); boolean true or omission: the default of 5
seconds; boolean false: no timeout; any other type: construction fails with
a descriptive error and no config value is produced.  Stated for both the
Java and the Python backend. -/
theorem c9_timeout_parsing (n d m fl t s dt : String) (i : Int) (q : ℚ)
    (xs : List Toml) (kvs : List (String × Toml))
    (hi0 : 0 ≤ i) (hi63 : i < 2 ^ 63) (hq0 : 0 ≤ q) (hq64 : q < 2 ^ 64) :
    ((JavaConfig.from_toml (java_conf_with_timeout n d m t
        (some (.int i)))).map JavaConfig.timeout =
      .ok (some { secs := i.toNat, nanos := 0 })
      ∧ (PythonConfig.from_toml (python_conf_with_timeout n d fl t
        (some (.int i)))).map PythonConfig.timeout =
      .ok (some { secs := i.toNat, nanos := 0 }))
    ∧ (∃ dur : Duration,
        (JavaConfig.from_toml (java_conf_with_timeout n d m t
          (some (.float q)))).map JavaConfig.timeout = .ok (some dur)
        ∧ (PythonConfig.from_toml (python_conf_with_timeout n d fl t
          (some (.float q)))).map PythonConfig.timeout = .ok (some dur)
        ∧ dur.nanos < 1000000000
        ∧ ((dur.secs : Int) * 1000000000 + (dur.nanos : Int) =
            ⌊q * 1000000000⌋))
    ∧ ((JavaConfig.from_toml (java_conf_with_timeout n d m t
        (some (.bool true)))).map JavaConfig.timeout =
          .ok (some { secs := 5, nanos := 0 })
      ∧ (JavaConfig.from_toml (java_conf_with_timeout n d m t none)).map
          JavaConfig.timeout = .ok (some { secs := 5, nanos := 0 })
      ∧ (PythonConfig.from_toml (python_conf_with_timeout n d fl t
          (some (.bool true)))).map PythonConfig.timeout =
          .ok (some { secs := 5, nanos := 0 })
      ∧ (PythonConfig.from_toml (python_conf_with_timeout n d fl t none)).map
          PythonConfig.timeout = .ok (some { secs := 5, nanos := 0 }))
    ∧ ((JavaConfig.from_toml (java_conf_with_timeout n d m t
        (some (.bool false)))).map JavaConfig.timeout = .ok none
      ∧ (PythonConfig.from_toml (python_conf_with_timeout n d fl t
        (some (.bool false)))).map PythonConfig.timeout = .ok none)
    ∧ (JavaConfig.from_toml (java_conf_with_timeout n d m t (some (.str s))) =
        .error "\"timeout\", if specified, should be a number or boolean"
      ∧ JavaConfig.from_toml (java_conf_with_timeout n d m t
          (some (.datetime dt))) =
        .error "\"timeout\", if specified, should be a number or boolean"
      ∧ JavaConfig.from_toml (java_conf_with_timeout n d m t
          (some (.arr xs))) =
        .error "\"timeout\", if specified, should be a number or boolean"
      ∧ JavaConfig.from_toml (java_conf_with_timeout n d m t
          (some (.table kvs))) =
        .error "\"timeout\", if specified, should be a number or boolean"
      ∧ PythonConfig.from_toml (python_conf_with_timeout n d fl t
          (some (.str s))) =
        .error "\"timeout\", if specified, should be a number or false"
      ∧ PythonConfig.from_toml (python_conf_with_timeout n d fl t
          (some (.datetime dt))) =
        .error "\"timeout\", if specified, should be a number or false"
      ∧ PythonConfig.from_toml (python_conf_with_timeout n d fl t
          (some (.arr xs))) =
        .error "\"timeout\", if specified, should be a number or false"
      ∧ PythonConfig.from_toml (python_conf_with_timeout n d fl t
          (some (.table kvs))) =
        .error "\"timeout\", if specified, should be a number or false") := by
  have hint : i64_as_u64 i = i.toNat := by
    unfold i64_as_u64
    rw [Int.emod_eq_of_lt hi0 (by omega)]
  refine ⟨⟨?_, ?_⟩, ?_, ⟨?_, ?_, ?_, ?_⟩, ⟨?_, ?_⟩, ?_, ?_, ?_, ?_, ?_, ?_, ?_, ?_⟩
  · simp only [javaTimeoutField_eval]
    simp [hint, Duration.new]
  · simp only [pythonTimeoutField_eval]
    simp [hint, Duration.new]
  · refine ⟨Duration.new (f64_as_u64 q) (f64_as_u32 (rust_rem q 1 * 1000000000)),
      by rw [javaTimeoutField_eval], by rw [pythonTimeoutField_eval], ?_, ?_⟩
    all_goals
      rw [f64_as_u64_of_lt hq0 hq64, rust_rem_one_of_nonneg hq0]
      obtain ⟨hu32, hlt9⟩ := f64_as_u32_fract q
      rw [hu32]
      simp only [Duration.new, Nat.div_eq_of_lt hlt9, Nat.mod_eq_of_lt hlt9,
        Nat.add_zero]
    · exact hlt9
    · have hsplit := floor_nanos_split q
      have h0a : 0 ≤ ⌊q⌋ := Int.floor_nonneg.mpr hq0
      have h0b : 0 ≤ ⌊(q - (⌊q⌋ : ℚ)) * 1000000000⌋ :=
        Int.floor_nonneg.mpr (fract_scaled_bounds q).1
      omega
  · rw [javaTimeoutField_eval]
    simp [Duration.new, DEFAULT_TIMEOUT]
  · rw [javaTimeoutField_eval]
    simp [Duration.new, DEFAULT_TIMEOUT]
  · rw [pythonTimeoutField_eval]
    simp [Duration.new, DEFAULT_TIMEOUT]
  · rw [pythonTimeoutField_eval]
    simp [Duration.new, DEFAULT_TIMEOUT]
  · rw [javaTimeoutField_eval]
  · rw [pythonTimeoutField_eval]
  · have h := javaTimeoutField_eval n d m t (some (.str s))
    simp only [Except.map] at h
    revert h
    cases hJ : JavaConfig.from_toml (java_conf_with_timeout n d m t (some (.str s))) with
    | ok a => intro h; cases h
    | error e => intro h; cases h; rfl
  · have h := javaTimeoutField_eval n d m t (some (.datetime dt))
    simp only [Except.map] at h
    revert h
    cases hJ : JavaConfig.from_toml (java_conf_with_timeout n d m t (some (.datetime dt))) with
    | ok a => intro h; cases h
    | error e => intro h; cases h; rfl
  · have h := javaTimeoutField_eval n d m t (some (.arr xs))
    simp only [Except.map] at h
    revert h
    cases hJ : JavaConfig.from_toml (java_conf_with_timeout n d m t (some (.arr xs))) with
    | ok a => intro h; cases h
    | error e => intro h; cases h; rfl
  · have h := javaTimeoutField_eval n d m t (some (.table kvs))
    simp only [Except.map] at h
    revert h
    cases hJ : JavaConfig.from_toml (java_conf_with_timeout n d m t (some (.table kvs))) with
    | ok a => intro h; cases h
    | error e => intro h; cases h; rfl
  · have h := pythonTimeoutField_eval n d fl t (some (.str s))
    simp only [Except.map] at h
    revert h
    cases hJ : PythonConfig.from_toml (python_conf_with_timeout n d fl t (some (.str s))) with
    | ok a => intro h; cases h
    | error e => intro h; cases h; rfl
  · have h := pythonTimeoutField_eval n d fl t (some (.datetime dt))
    simp only [Except.map] at h
    revert h
    cases hJ : PythonConfig.from_toml (python_conf_with_timeout n d fl t (some (.datetime dt))) with
    | ok a => intro h; cases h
    | error e => intro h; cases h; rfl
  · have h := pythonTimeoutField_eval n d fl t (some (.arr xs))
    simp only [Except.map] at h
    revert h
    cases hJ : PythonConfig.from_toml (python_conf_with_timeout n d fl t (some (.arr xs))) with
    | ok a => intro h; cases h
    | error e => intro h; cases h; rfl
  · have h := pythonTimeoutField_eval n d fl t (some (.table kvs))
    simp only [Except.map] at h
    revert h
    cases hJ : PythonConfig.from_toml (python_conf_with_timeout n d fl t (some (.table kvs))) with
    | ok a => intro h; cases h
    | error e => intro h; cases h; rfl

/-- Witness for `c9_timeout_parsing` at concrete inputs: timeout 7 gives
seven seconds for the Java backend, and timeout as a string fails Python
construction with the source's message. -/
theorem c9_witness :
    (JavaConfig.from_toml (java_conf_with_timeout "Test A" "tests" "Main"
        "students" (some (.int 7)))).map JavaConfig.timeout =
      .ok (some { secs := 7, nanos := 0 })
    ∧ PythonConfig.from_toml (python_conf_with_timeout "Test A" "tests"
        "main.py" "students" (some (.str "soon"))) =
      .error "\"timeout\", if specified, should be a number or false" :=
  ⟨(c9_timeout_parsing "Test A" "tests" "Main" "main.py" "students" "soon"
      "1979-05-27T07:32:00Z" 7 (3 / 2) [] [] (by decide) (by decide)
      (by norm_num) (by norm_num)).1.1,
   (c9_timeout_parsing "Test A" "tests" "Main" "main.py" "students" "soon"
      "1979-05-27T07:32:00Z" 7 (3 / 2) [] [] (by decide) (by decide)
      (by norm_num) (by norm_num)).2.2.2.2.2.2.2.2.2.1⟩

lemma rust_rem_one_nonpos {q : ℚ} (h : q < 0) : rust_rem q 1 ≤ 0 := by
  unfold rust_rem rat_trunc
  rw [div_one, if_pos h]
  have hfl : (⌊-q⌋ : ℚ) ≤ -q := Int.floor_le _
  push_cast
  linarith

lemma f64_as_u32_nonpos {q : ℚ} (h : q ≤ 0) : f64_as_u32 q = 0 := by
  unfold f64_as_u32
  by_cases hq : q < 0
  · rw [if_pos hq]
  · have h0 : q = 0 := le_antisymm h (not_lt.mp hq)
    subst h0
    rw [if_neg hq]
    unfold rat_trunc
    rw [if_neg hq]
    simp

/-- C10 amended: a negative timeout never fails construction, but only the
integer form wraps modulo 2^64 (so -1 gives 2^64 - 1 seconds); a negative
fractional timeout saturates instead — the Rust float-to-integer cast
clamps negative values to zero, giving a zero duration. -/
theorem c10_amended (n d m fl t : String) (i : Int) (q : ℚ)
    (hineg : i < 0) (hi63 : -(2 ^ 63) ≤ i) (hqneg : q < 0) :
    ((JavaConfig.from_toml (java_conf_with_timeout n d m t
        (some (.int i)))).map JavaConfig.timeout =
      .ok (some { secs := (i + 2 ^ 64).toNat, nanos := 0 })
      ∧ (PythonConfig.from_toml (python_conf_with_timeout n d fl t
        (some (.int i)))).map PythonConfig.timeout =
      .ok (some { secs := (i + 2 ^ 64).toNat, nanos := 0 }))
    ∧ ((JavaConfig.from_toml (java_conf_with_timeout n d m t
        (some (.float q)))).map JavaConfig.timeout =
      .ok (some { secs := 0, nanos := 0 })
      ∧ (PythonConfig.from_toml (python_conf_with_timeout n d fl t
        (some (.float q)))).map PythonConfig.timeout =
      .ok (some { secs := 0, nanos := 0 })) := by
  have hint : i64_as_u64 i = (i + 2 ^ 64).toNat := by
    unfold i64_as_u64
    omega
  have hu64 : f64_as_u64 q = 0 := by
    unfold f64_as_u64
    rw [if_pos hqneg]
  have hrem : f64_as_u32 (rust_rem q 1 * 1000000000) = 0 := by
    apply f64_as_u32_nonpos
    nlinarith [rust_rem_one_nonpos hqneg]
  refine ⟨⟨?_, ?_⟩, ?_, ?_⟩
  · simp only [javaTimeoutField_eval]
    simp [hint, Duration.new]
  · simp only [pythonTimeoutField_eval]
    simp [hint, Duration.new]
  · simp only [javaTimeoutField_eval]
    simp [hu64, hrem, Duration.new]
  · simp only [pythonTimeoutField_eval]
    simp [hu64, hrem, Duration.new]

/-- Witness for `c10_amended` at timeout -1 (integer) and -3/2 (float): the
integer wraps to 2^64 - 1 seconds, the float clamps to a zero duration. -/
theorem c10_witness :
    (JavaConfig.from_toml (java_conf_with_timeout "Test A" "tests" "Main"
        "students" (some (.int (-1))))).map JavaConfig.timeout =
      .ok (some { secs := 2 ^ 64 - 1, nanos := 0 })
    ∧ (PythonConfig.from_toml (python_conf_with_timeout "Test A" "tests"
        "main.py" "students" (some (.float (-3 / 2))))).map
        PythonConfig.timeout = .ok (some { secs := 0, nanos := 0 }) :=
  ⟨(c10_amended "Test A" "tests" "Main" "main.py" "students" (-1) (-3 / 2)
      (by decide) (by decide) (by norm_num)).1.1,
   (c10_amended "Test A" "tests" "Main" "main.py" "students" (-1) (-3 / 2)
      (by decide) (by decide) (by norm_num)).2.2⟩

/-- Counterexample to C10 as stated: for the negative fractional timeout
-1.0 the code does not wrap modulo 2^64 — it produces a zero duration, not
2^64 - 1 seconds. -/
theorem c10_counterexample :
    (JavaConfig.from_toml (java_conf_with_timeout "Test A" "tests" "Main"
        "students" (some (.float (-1))))).map JavaConfig.timeout =
      .ok (some { secs := 0, nanos := 0 })
    ∧ ({ secs := 0, nanos := 0 } : Duration) ≠ { secs := 2 ^ 64 - 1, nanos := 0 } := by
  constructor
  · simp [JavaConfig.from_toml, java_conf_with_timeout, Toml.get, List.lookup,
      Except.map, bind, Except.bind, f64_as_u64, f64_as_u32, rust_rem,
      rat_trunc, Duration.new]
  · decide

lemma OrchResult.map_eq_ok {α β : Type} (f : α → β) (x : OrchResult α) (b : β) :
    OrchResult.map f x = .ok b ↔ ∃ a, x = .ok a ∧ b = f a := by
  cases x <;> simp [OrchResult.map]
  exact eq_comm

lemma test_student_keys (cmd : String) (args : List String)
    (ev : List (String × String)) (cases : List (String × TestCase))
    (timeout : Option Nat) (w : World) (res : StudentResults)
    (h : (test_student_against_test_case cmd args ev cases timeout w).1 = .ok res) :
    res.map Prod.fst = cases.map Prod.fst := by
  induction cases generalizing res with
  | nil =>
    simp only [test_student_against_test_case] at h
    cases h
    rfl
  | cons p rest ih =>
    obtain ⟨case_name, case_data⟩ := p
    simp only [test_student_against_test_case] at h
    cases hrun : (test_output_against_strings cmd args case_data.input
        case_data.output timeout (w.proc cmd args case_data.input)).2 with
    | hangs => rw [hrun] at h; cases h
    | term r =>
      rw [hrun] at h
      simp only [OrchResult.map_eq_ok] at h
      obtain ⟨l, hl, hres⟩ := h
      subst hres
      simpa using ih l hl

lemma test_student_values (cmd : String) (args : List String)
    (ev : List (String × String)) (cases : List (String × TestCase))
    (timeout : Option Nat) (w : World) (res : StudentResults)
    (h : (test_student_against_test_case cmd args ev cases timeout w).1 = .ok res) :
    ∀ p ∈ cases, ∀ r,
      (test_output_against_strings cmd args p.2.input p.2.output timeout
        (w.proc cmd args p.2.input)).2 = .term r → (p.1, r) ∈ res := by
  induction cases generalizing res with
  | nil => intro p hp; cases hp
  | cons q rest ih =>
    obtain ⟨case_name, case_data⟩ := q
    simp only [test_student_against_test_case] at h
    cases hrun : (test_output_against_strings cmd args case_data.input
        case_data.output timeout (w.proc cmd args case_data.input)).2 with
    | hangs => rw [hrun] at h; cases h
    | term r0 =>
      rw [hrun] at h
      simp only [OrchResult.map_eq_ok] at h
      obtain ⟨l, hl, hres⟩ := h
      subst hres
      intro p hp r hr
      rcases List.mem_cons.mp hp with heq | hmem
      · subst heq
        simp only at hr
        rw [hr] at hrun
        cases hrun
        exact List.mem_cons_self _ _
      · exact List.mem_cons_of_mem _ (ih l hl p hmem r hr)

lemma test_student_ok_of_no_hang (cmd : String) (args : List String)
    (ev : List (String × String)) (cases : List (String × TestCase))
    (timeout : Option Nat) (w : World)
    (h : ∀ p ∈ cases,
      (test_output_against_strings cmd args p.2.input p.2.output timeout
        (w.proc cmd args p.2.input)).2 ≠ .hangs) :
    ∃ res, (test_student_against_test_case cmd args ev cases timeout w).1 = .ok res := by
  induction cases with
  | nil => exact ⟨[], rfl⟩
  | cons q rest ih =>
    obtain ⟨case_name, case_data⟩ := q
    obtain ⟨res, hres⟩ := ih (fun p hp => h p (List.mem_cons_of_mem _ hp))
    simp only [test_student_against_test_case]
    cases hrun : (test_output_against_strings cmd args case_data.input
        case_data.output timeout (w.proc cmd args case_data.input)).2 with
    | hangs => exact absurd hrun (h _ (List.mem_cons_self _ _))
    | term r =>
      refine ⟨(case_name, r) :: res, ?_⟩
      simp [hres, OrchResult.map]

lemma process_student_calls (config : Config) (w : World)
    (td : List (String × TestCase)) (ent : DirEnt) :
    ∀ x ∈ (process_student config w td ent).2,
      ent.name = some x.1
      ∧ config.do_setup (config.target_dir ++ "/" ++ x.1) = true := by
  intro x hx
  cases hn : ent.name with
  | none => simp [process_student, hn] at hx
  | some student_name =>
    by_cases hs : config.do_setup (config.target_dir ++ "/" ++ student_name)
    · simp only [process_student, hn, hs, if_true] at hx
      obtain ⟨c, _, hxc⟩ := List.mem_map.mp hx
      subst hxc
      exact ⟨rfl, hs⟩
    · simp [process_student, hn, hs] at hx

lemma process_student_setup_false (config : Config) (w : World)
    (td : List (String × TestCase)) (ent : DirEnt) (student_name : String)
    (hn : ent.name = some student_name)
    (hs : config.do_setup (config.target_dir ++ "/" ++ student_name) = false) :
    process_student config w td ent =
      (.ok (student_name,
        td.map (fun p => (p.1, Except.ok TestAnswer.CompileError))), []) := by
  simp [process_student, hn, hs]

lemma process_student_ok_setup_true (config : Config) (w : World)
    (td : List (String × TestCase)) (ent : DirEnt) (student_name : String)
    (pp : String × StudentResults)
    (hn : ent.name = some student_name)
    (hs : config.do_setup (config.target_dir ++ "/" ++ student_name) = true)
    (h : (process_student config w td ent).1 = .ok pp) :
    ∃ res,
      (test_student_against_test_case
        (config.command (config.target_dir ++ "/" ++ student_name))
        (config.args (config.target_dir ++ "/" ++ student_name))
        (config.env_vars (config.target_dir ++ "/" ++ student_name))
        td config.case_timeout w).1 = .ok res
      ∧ pp = (student_name, res) := by
  simp only [process_student, hn, hs, if_true] at h
  rw [OrchResult.map_eq_ok] at h
  obtain ⟨res, hres, hpp⟩ := h
  exact ⟨res, hres, hpp⟩

lemma process_student_ok_name (config : Config) (w : World)
    (td : List (String × TestCase)) (ent : DirEnt)
    (pp : String × StudentResults)
    (h : (process_student config w td ent).1 = .ok pp) :
    ent.name = some pp.1 := by
  cases hn : ent.name with
  | none => simp [process_student, hn] at h
  | some student_name =>
    by_cases hs : config.do_setup (config.target_dir ++ "/" ++ student_name)
    · obtain ⟨res, _, hpp⟩ :=
        process_student_ok_setup_true config w td ent student_name pp hn hs h
      rw [hpp]
    · rw [process_student_setup_false config w td ent student_name hn
        (by simpa using hs)] at h
      cases h
      rfl

lemma process_student_keys (config : Config) (w : World)
    (td : List (String × TestCase)) (ent : DirEnt)
    (pp : String × StudentResults)
    (h : (process_student config w td ent).1 = .ok pp) :
    pp.2.map Prod.fst = td.map Prod.fst := by
  cases hn : ent.name with
  | none => simp [process_student, hn] at h
  | some student_name =>
    by_cases hs : config.do_setup (config.target_dir ++ "/" ++ student_name)
    · obtain ⟨res, hres, hpp⟩ :=
        process_student_ok_setup_true config w td ent student_name pp hn hs h
      rw [hpp]
      exact test_student_keys _ _ _ _ _ _ _ hres
    · rw [process_student_setup_false config w td ent student_name hn
        (by simpa using hs)] at h
      cases h
      simp

lemma process_students_ok (config : Config) (w : World)
    (td : List (String × TestCase)) (l : List DirEnt) (cr : ClassResults)
    (tr : List (String × RunnerCall))
    (h : process_students config w td l = (.ok cr, tr)) :
    (∀ ent ∈ l, ∃ pp, (process_student config w td ent).1 = .ok pp
       ∧ pp ∈ cr)
    ∧ (∀ pp ∈ cr, ∃ ent ∈ l, (process_student config w td ent).1 = .ok pp)
    ∧ (∀ x ∈ tr, ∃ ent ∈ l, x ∈ (process_student config w td ent).2) := by
  induction l generalizing cr tr with
  | nil =>
    simp only [process_students] at h
    obtain ⟨h1, h2⟩ := Prod.mk.injEq .. ▸ h
    cases h1
    cases h2
    refine ⟨fun ent hent => absurd hent (List.not_mem_nil ent), ?_, ?_⟩
    · intro pp hpp; cases hpp
    · intro x hx; cases hx
  | cons ent rest ih =>
    simp only [process_students] at h
    cases hstep : (process_student config w td ent).1 with
    | ok p =>
      rw [hstep] at h
      cases hrest : (process_students config w td rest).1 with
      | ok cr0 =>
        rw [show process_students config w td rest =
            ((process_students config w td rest).1,
             (process_students config w td rest).2) from rfl, hrest] at h
        simp only [OrchResult.map] at h
        obtain ⟨h1, h2⟩ := Prod.mk.injEq .. ▸ h
        cases h1
        cases h2
        obtain ⟨ihall, ihcov, ihtr⟩ := ih cr0 (process_students config w td rest).2
          (by rw [show process_students config w td rest =
            ((process_students config w td rest).1,
             (process_students config w td rest).2) from rfl, hrest])
        refine ⟨?_, ?_, ?_⟩
        · intro e he
          rcases List.mem_cons.mp he with heq | hmem
          · subst heq
            exact ⟨p, hstep, List.mem_cons_self _ _⟩
          · obtain ⟨pp, hpe, hppcr⟩ := ihall e hmem
            exact ⟨pp, hpe, List.mem_cons_of_mem _ hppcr⟩
        · intro pp hpp
          rcases List.mem_cons.mp hpp with heq | hmem
          · subst heq
            exact ⟨ent, List.mem_cons_self _ _, hstep⟩
          · obtain ⟨e, he, hpe⟩ := ihcov pp hmem
            exact ⟨e, List.mem_cons_of_mem _ he, hpe⟩
        · intro x hx
          rcases List.mem_append.mp hx with hmem | hmem
          · exact ⟨ent, List.mem_cons_self _ _, hmem⟩
          · obtain ⟨e, he, hxe⟩ := ihtr x hmem
            exact ⟨e, List.mem_cons_of_mem _ he, hxe⟩
      | err e =>
        rw [show process_students config w td rest =
            ((process_students config w td rest).1,
             (process_students config w td rest).2) from rfl, hrest] at h
        simp only [OrchResult.map] at h
        cases (Prod.mk.injEq .. ▸ h).1
      | panic m =>
        rw [show process_students config w td rest =
            ((process_students config w td rest).1,
             (process_students config w td rest).2) from rfl, hrest] at h
        simp only [OrchResult.map] at h
        cases (Prod.mk.injEq .. ▸ h).1
      | hangs =>
        rw [show process_students config w td rest =
            ((process_students config w td rest).1,
             (process_students config w td rest).2) from rfl, hrest] at h
        simp only [OrchResult.map] at h
        cases (Prod.mk.injEq .. ▸ h).1
    | err e => rw [hstep] at h; cases (Prod.mk.injEq .. ▸ h).1
    | panic m => rw [hstep] at h; cases (Prod.mk.injEq .. ▸ h).1
    | hangs => rw [hstep] at h; cases (Prod.mk.injEq .. ▸ h).1

lemma process_students_all_ok (config : Config) (w : World)
    (td : List (String × TestCase)) (l : List DirEnt)
    (h : ∀ ent ∈ l, ∃ pp, (process_student config w td ent).1 = .ok pp) :
    ∃ cr tr, process_students config w td l = (.ok cr, tr) := by
  induction l with
  | nil => exact ⟨[], [], rfl⟩
  | cons ent rest ih =>
    obtain ⟨cr, tr, hrest⟩ := ih (fun e he => h e (List.mem_cons_of_mem _ he))
    obtain ⟨pp, hpp⟩ := h ent (List.mem_cons_self _ _)
    refine ⟨pp :: cr, (process_student config w td ent).2 ++ tr, ?_⟩
    simp only [process_students, hpp, hrest, OrchResult.map]

lemma test_from_configuration_ok (config : Config) (w : World)
    (cr : ClassResults) (tr : List (String × RunnerCall))
    (h : test_from_configuration config w = (.ok cr, tr)) :
    ∃ td tentries, load_test_data config w = .ok td
      ∧ w.target_entries = .ok tentries
      ∧ process_students config w td (list_students tentries) = (.ok cr, tr) := by
  unfold test_from_configuration at h
  cases hl : load_test_data config w with
  | ok td =>
    rw [hl] at h
    cases ht : w.target_entries with
    | ok tentries =>
      rw [ht] at h
      exact ⟨td, tentries, rfl, rfl, h⟩
    | error e =>
      rw [ht] at h
      cases (Prod.mk.injEq .. ▸ h).1
  | err e => rw [hl] at h; cases (Prod.mk.injEq .. ▸ h).1
  | panic m => rw [hl] at h; cases (Prod.mk.injEq .. ▸ h).1
  | hangs => rw [hl] at h; cases (Prod.mk.injEq .. ▸ h).1

end Stipulate

namespace Stipulate

/-- C3: for every run that returns a class report, every student's result
map has exactly the same keys, in the same order, as the loaded `TestCase`
mapping — one entry per known case, no more and no fewer, whether the
student's entries came from setup failure (`CompileError`) or from runner
outcomes. -/
theorem c3_key_completeness (config : Config) (w : World)
    (td : List (String × TestCase)) (cr : ClassResults)
    (tr : List (String × RunnerCall))
    (hload : load_test_data config w = .ok td)
    (hrun : test_from_configuration config w = (.ok cr, tr)) :
    ∀ p ∈ cr, p.2.map Prod.fst = td.map Prod.fst := by
  obtain ⟨td2, tent, hl2, ht, hps⟩ := test_from_configuration_ok config w cr tr hrun
  rw [hload] at hl2
  cases hl2
  intro p hp
  obtain ⟨_, hcov, _⟩ := process_students_ok config w td (list_students tent) cr tr hps
  obtain ⟨ent, _, hpe⟩ := hcov p hp
  exact process_student_keys config w td ent p hpe

/-- Witness for `c3_key_completeness` on the concrete one-case, one-student
run: the student's result keys equal the test-data keys. -/
theorem c3_witness :
    (("alice", [("case1", Except.ok TestAnswer.Success)]) :
        String × StudentResults).2.map Prod.fst =
      ([("case1", { input := "hi", output := "hi" })] :
        List (String × TestCase)).map Prod.fst :=
  c3_key_completeness pyConfig okWorld
    [("case1", { input := "hi", output := "hi" })]
    [("alice", [("case1", Except.ok TestAnswer.Success)])]
    [("alice", { cmd := "python3"
                 args := ["students/alice/main.py"]
                 env_vars := []
                 input := "hi"
                 expected := "hi"
                 timeout := some 5 })]
    (by decide) (by decide)
    ("alice", [("case1", Except.ok TestAnswer.Success)]) (by decide)

/-- C4: a student whose setup fails is reported with `CompileError` for
every known test case, and the invocation trace contains no process-runner
call for that student — no command, argument or environment construction
reaches the runner for that submission. -/
theorem c4_setup_failure_skips_runner (config : Config) (w : World)
    (cr : ClassResults) (tr : List (String × RunnerCall)) (ent : DirEnt)
    (student_name : String)
    (hrun : test_from_configuration config w = (.ok cr, tr))
    (hmem : ∃ tentries, w.target_entries = .ok tentries
      ∧ ent ∈ list_students tentries)
    (hname : ent.name = some student_name)
    (hsetup : config.do_setup (config.target_dir ++ "/" ++ student_name) = false) :
    (∃ td, load_test_data config w = .ok td
      ∧ (student_name,
          td.map (fun p => (p.1, Except.ok TestAnswer.CompileError))) ∈ cr)
    ∧ ∀ x ∈ tr, x.1 ≠ student_name := by
  obtain ⟨td, tent, hl, ht, hps⟩ := test_from_configuration_ok config w cr tr hrun
  obtain ⟨hall, hcov, htrc⟩ := process_students_ok config w td (list_students tent) cr tr hps
  obtain ⟨tent2, ht2, hent⟩ := hmem
  rw [ht] at ht2
  cases ht2
  refine ⟨⟨td, hl, ?_⟩, ?_⟩
  · obtain ⟨pp, hpe, hppcr⟩ := hall ent hent
    rw [process_student_setup_false config w td ent student_name hname hsetup] at hpe
    simp only at hpe
    cases hpe
    exact hppcr
  · intro x hx hxn
    obtain ⟨ent2, _, hxent⟩ := htrc x hx
    obtain ⟨_, hs⟩ := process_student_calls config w td ent2 x hxent
    rw [hxn, hsetup] at hs
    cases hs

/-- Witness for `c4_setup_failure_skips_runner` on the concrete two-student
run where setup fails for "bob": bob's row is all `CompileError` and the
trace holds no call tagged "bob". -/
theorem c4_witness :
    (∃ td, load_test_data setupFailConfig twoStudentWorld = .ok td
      ∧ ("bob", td.map (fun p => (p.1, Except.ok TestAnswer.CompileError))) ∈
        ([("alice", [("case1", Except.ok TestAnswer.Success)]),
          ("bob", [("case1", Except.ok TestAnswer.CompileError)])] : ClassResults))
    ∧ ∀ x ∈ ([("alice", { cmd := "python3"
                          args := ["students/alice/main.py"]
                          env_vars := []
                          input := "hi"
                          expected := "hi"
                          timeout := some 5 })] :
        List (String × RunnerCall)), x.1 ≠ "bob" :=
  c4_setup_failure_skips_runner setupFailConfig twoStudentWorld
    [("alice", [("case1", Except.ok TestAnswer.Success)]),
     ("bob", [("case1", Except.ok TestAnswer.CompileError)])]
    [("alice", { cmd := "python3"
                 args := ["students/alice/main.py"]
                 env_vars := []
                 input := "hi"
                 expected := "hi"
                 timeout := some 5 })]
    { name := some "bob", is_dir := some true } "bob"
    (by decide)
    ⟨[.ok { name := some "alice", is_dir := some true },
      .ok { name := some "bob", is_dir := some true }], by decide, by decide⟩
    (by decide) (by decide)

lemma collect_results_err_of_mem {α : Type} (f : α → OrchResult String)
    (hf : ∀ x, (∃ str, f x = .ok str) ∨ (∃ e, f x = .err e))
    (l : List α) (c : α) (hc : c ∈ l) (e : String) (hfe : f c = .err e) :
    ∃ e2, collect_results f l = .err e2 := by
  induction l with
  | nil => cases hc
  | cons a rest ih =>
    rcases List.mem_cons.mp hc with heq | hmem
    · subst heq
      refine ⟨e, ?_⟩
      simp only [collect_results]
      rw [hfe]
    · rcases hf a with ⟨str, ha⟩ | ⟨e3, ha⟩
      · obtain ⟨e2, h2⟩ := ih hmem
        refine ⟨e2, ?_⟩
        simp only [collect_results]
        rw [ha, h2]
      · refine ⟨e3, ?_⟩
        simp only [collect_results]
        rw [ha]

lemma collect_results_total {α : Type} (f : α → OrchResult String)
    (hf : ∀ x, (∃ str, f x = .ok str) ∨ (∃ e, f x = .err e)) (l : List α) :
    (∃ res, collect_results f l = .ok res)
    ∨ (∃ e, collect_results f l = .err e) := by
  induction l with
  | nil => exact .inl ⟨[], rfl⟩
  | cons a rest ih =>
    rcases hf a with ⟨str, ha⟩ | ⟨e, ha⟩
    · rcases ih with ⟨res, hres⟩ | ⟨e, he⟩
      · refine .inl ⟨str :: res, ?_⟩
        simp only [collect_results]
        rw [ha, hres]
      · refine .inr ⟨e, ?_⟩
        simp only [collect_results]
        rw [ha, he]
    · refine .inr ⟨e, ?_⟩
      simp only [collect_results]
      rw [ha]

/-- C5: when any discovered case basename lacks a readable `.in` or `.out`
file (a failed read also covers non-UTF-8 content), the whole grading run
aborts with an error and no class report of any kind is produced. -/
theorem c5_fixture_failure_aborts (config : Config) (w : World) (dir : String)
    (fentries : List (Except String (Option String))) (raw : List String)
    (c : String)
    (hdir : config.test_type = .Directory dir)
    (hfe : w.fixture_entries = .ok fentries)
    (hdisc : discover_cases fentries = .ok raw)
    (hc : c ∈ itertools_unique raw)
    (hfail : (∃ e, w.file_contents (dir ++ "/" ++ c ++ ".in") = .error e)
           ∨ (∃ e, w.file_contents (dir ++ "/" ++ c ++ ".out") = .error e)) :
    (∃ e, (test_from_configuration config w).1 = .err e)
    ∧ ∀ cr, (test_from_configuration config w).1 ≠ .ok cr := by
  have hfin : ∀ x, (∃ str,
      file_result (w.file_contents (dir ++ "/" ++ x ++ ".in")) = .ok str) ∨
      (∃ e, file_result (w.file_contents (dir ++ "/" ++ x ++ ".in")) = .err e) := by
    intro x
    cases hx : w.file_contents (dir ++ "/" ++ x ++ ".in") with
    | ok str => exact .inl ⟨str, rfl⟩
    | error e => exact .inr ⟨e, rfl⟩
  have hfout : ∀ x, (∃ str,
      file_result (w.file_contents (dir ++ "/" ++ x ++ ".out")) = .ok str) ∨
      (∃ e, file_result (w.file_contents (dir ++ "/" ++ x ++ ".out")) = .err e) := by
    intro x
    cases hx : w.file_contents (dir ++ "/" ++ x ++ ".out") with
    | ok str => exact .inl ⟨str, rfl⟩
    | error e => exact .inr ⟨e, rfl⟩
  have habort : ∃ e, load_test_data config w = .err e := by
    rcases hfail with ⟨e, he⟩ | ⟨e, he⟩
    · obtain ⟨e2, h2⟩ := collect_results_err_of_mem
        (fun x => file_result (w.file_contents (dir ++ "/" ++ x ++ ".in")))
        hfin (itertools_unique raw) c hc e (by simp [file_result, he])
      exact ⟨e2, by simp only [load_test_data, hdir, hfe, hdisc, h2]⟩
    · rcases collect_results_total
        (fun x => file_result (w.file_contents (dir ++ "/" ++ x ++ ".in")))
        hfin (itertools_unique raw) with ⟨res, hres⟩ | ⟨e3, he3⟩
      · obtain ⟨e2, h2⟩ := collect_results_err_of_mem
          (fun x => file_result (w.file_contents (dir ++ "/" ++ x ++ ".out")))
          hfout (itertools_unique raw) c hc e (by simp [file_result, he])
        exact ⟨e2, by simp only [load_test_data, hdir, hfe, hdisc, hres, h2]⟩
      · exact ⟨e3, by simp only [load_test_data, hdir, hfe, hdisc, he3]⟩
  obtain ⟨e, he⟩ := habort
  refine ⟨⟨e, by simp [test_from_configuration, he]⟩, ?_⟩
  intro cr
  simp [test_from_configuration, he]

/-- Witness for `c5_fixture_failure_aborts` on the concrete world whose
fixture directory holds "case1.in" but no "case1.out": the run aborts. -/
theorem c5_witness :
    (∃ e, (test_from_configuration pyConfig missingOutWorld).1 = .err e)
    ∧ ∀ cr, (test_from_configuration pyConfig missingOutWorld).1 ≠ .ok cr :=
  c5_fixture_failure_aborts pyConfig missingOutWorld "tests"
    [.ok (some "case1.in")] ["case1"] "case1"
    (by decide) (by decide) (by decide) (by decide)
    (.inr ⟨"No such file or directory", by decide⟩)

/-- Counterexample to C7 as stated: a target-directory entry whose name is
not valid Unicode is not captured as a per-(student, case) error value — the
orchestrator panics ("Error loading student folder", the `expect` on
`path().to_str()`) and no report is produced. -/
theorem c7_counterexample :
    test_from_configuration pyConfig nonUnicodeWorld =
      (.panic "Error loading student folder", [])
    ∧ ∀ cr, (test_from_configuration pyConfig nonUnicodeWorld).1 ≠ .ok cr := by
  refine ⟨by decide, ?_⟩
  intro cr hcr
  rw [show (test_from_configuration pyConfig nonUnicodeWorld).1 =
      .panic "Error loading student folder" from by decide] at hcr
  cases hcr

/-- C7 amended: once fixture loading and the target listing succeed, and
every discovered student directory has a Unicode name and no case diverges,
the run always returns a class report — per-case errors (spawn failure, I/O
failure, non-UTF-8 child output) are captured as the `Result` value stored
for that (student, case) and stop neither the other cases nor the other
students.  (A non-Unicode file or directory name, by contrast, panics: see
the counterexample.) -/
theorem c7_amended (config : Config) (w : World)
    (td : List (String × TestCase)) (tentries : List (Except String DirEnt))
    (hload : load_test_data config w = .ok td)
    (htl : w.target_entries = .ok tentries)
    (hnames : ∀ ent ∈ list_students tentries, ent.name ≠ none)
    (hnohang : ∀ ent ∈ list_students tentries, ∀ nm, ent.name = some nm →
      ∀ p ∈ td,
        (test_output_against_strings
          (config.command (config.target_dir ++ "/" ++ nm))
          (config.args (config.target_dir ++ "/" ++ nm))
          p.2.input p.2.output config.case_timeout
          (w.proc (config.command (config.target_dir ++ "/" ++ nm))
            (config.args (config.target_dir ++ "/" ++ nm)) p.2.input)).2
          ≠ .hangs) :
    ∃ cr tr, test_from_configuration config w = (.ok cr, tr)
      ∧ ∀ ent ∈ list_students tentries, ∀ nm, ent.name = some nm →
        ∃ sr, (nm, sr) ∈ cr
          ∧ (config.do_setup (config.target_dir ++ "/" ++ nm) = false →
              sr = td.map (fun p => (p.1, Except.ok TestAnswer.CompileError)))
          ∧ (config.do_setup (config.target_dir ++ "/" ++ nm) = true →
              ∀ p ∈ td, ∀ r,
                (test_output_against_strings
                  (config.command (config.target_dir ++ "/" ++ nm))
                  (config.args (config.target_dir ++ "/" ++ nm))
                  p.2.input p.2.output config.case_timeout
                  (w.proc (config.command (config.target_dir ++ "/" ++ nm))
                    (config.args (config.target_dir ++ "/" ++ nm)) p.2.input)).2
                  = .term r →
                (p.1, r) ∈ sr) := by
  have hstep : ∀ ent ∈ list_students tentries,
      ∃ pp, (process_student config w td ent).1 = .ok pp := by
    intro ent hent
    cases hn : ent.name with
    | none => exact absurd hn (hnames ent hent)
    | some nm =>
      by_cases hs : config.do_setup (config.target_dir ++ "/" ++ nm) = true
      case neg =>
        have hs2 : config.do_setup (config.target_dir ++ "/" ++ nm) = false := by
          simpa using hs
        exact ⟨(nm, td.map (fun p => (p.1, Except.ok TestAnswer.CompileError))),
          by rw [process_student_setup_false config w td ent nm hn hs2]⟩
      case pos =>
        obtain ⟨res, hres⟩ := test_student_ok_of_no_hang
          (config.command (config.target_dir ++ "/" ++ nm))
          (config.args (config.target_dir ++ "/" ++ nm))
          (config.env_vars (config.target_dir ++ "/" ++ nm)) td
          config.case_timeout w
          (fun p hp => hnohang ent hent nm hn p hp)
        refine ⟨(nm, res), ?_⟩
        simp only [process_student, hn, hs, if_true]
        rw [hres]
        rfl
  obtain ⟨cr, tr, hps⟩ := process_students_all_ok config w td
    (list_students tentries) hstep
  refine ⟨cr, tr, ?_, ?_⟩
  · simp only [test_from_configuration, hload, htl]
    exact hps
  · obtain ⟨hall, hcov, htrc⟩ := process_students_ok config w td
      (list_students tentries) cr tr hps
    intro ent hent nm hn
    obtain ⟨pp, hpe, hppcr⟩ := hall ent hent
    by_cases hs : config.do_setup (config.target_dir ++ "/" ++ nm) = true
    case neg =>
      have hs2 : config.do_setup (config.target_dir ++ "/" ++ nm) = false := by
        simpa using hs
      rw [process_student_setup_false config w td ent nm hn hs2] at hpe
      simp only at hpe
      cases hpe
      exact ⟨_, hppcr, fun _ => rfl,
        fun htrue => by rw [htrue] at hs2; cases hs2⟩
    case pos =>
      obtain ⟨res, hres, hppe⟩ :=
        process_student_ok_setup_true config w td ent nm pp hn hs hpe
      subst hppe
      refine ⟨res, hppcr, ?_, ?_⟩
      · intro hfalse
        rw [hfalse] at hs
        cases hs
      · intro _ p hp r hr
        exact test_student_values _ _ _ _ _ _ _ hres p hp r hr

/-- Witness for `c7_amended` on the concrete two-student world whose every
child for "bob" fails to spawn: the run still returns a report with both
students, and bob's spawn failure is recorded at his (student, case)
entry. -/
theorem c7_witness :
    ∃ cr tr, test_from_configuration pyConfig spawnErrWorld = (.ok cr, tr)
      ∧ ∀ ent ∈ list_students
          [.ok { name := some "alice", is_dir := some true },
           .ok { name := some "bob", is_dir := some true }],
        ∀ nm, ent.name = some nm →
        ∃ sr, (nm, sr) ∈ cr
          ∧ (pyConfig.do_setup (pyConfig.target_dir ++ "/" ++ nm) = false →
              sr = ([("case1", { input := "hi", output := "hi" })] :
                List (String × TestCase)).map
                (fun p => (p.1, Except.ok TestAnswer.CompileError)))
          ∧ (pyConfig.do_setup (pyConfig.target_dir ++ "/" ++ nm) = true →
              ∀ p ∈ ([("case1", { input := "hi", output := "hi" })] :
                List (String × TestCase)), ∀ r,
                (test_output_against_strings
                  (pyConfig.command (pyConfig.target_dir ++ "/" ++ nm))
                  (pyConfig.args (pyConfig.target_dir ++ "/" ++ nm))
                  p.2.input p.2.output pyConfig.case_timeout
                  (spawnErrWorld.proc
                    (pyConfig.command (pyConfig.target_dir ++ "/" ++ nm))
                    (pyConfig.args (pyConfig.target_dir ++ "/" ++ nm))
                    p.2.input)).2 = .term r →
                (p.1, r) ∈ sr) :=
  c7_amended pyConfig spawnErrWorld
    [("case1", { input := "hi", output := "hi" })]
    [.ok { name := some "alice", is_dir := some true },
     .ok { name := some "bob", is_dir := some true }]
    (by decide) (by decide) (by decide)
    (by
      intro ent hent nm hn
      rw [show list_students
          [.ok { name := some "alice", is_dir := some true },
           .ok { name := some "bob", is_dir := some true }] =
          [{ name := some "alice", is_dir := some true },
           { name := some "bob", is_dir := some true }] from by decide] at hent
      rcases List.mem_cons.mp hent with rfl | h2
      · cases hn
        decide
      · rcases List.mem_cons.mp h2 with rfl | h3
        · cases hn
          decide
        · cases h3)

/-- Counterexample to C8 as stated: a stray "notes.txt" in the fixture
directory (with no "notes.in"/"notes.out") is not ignored — its stripped
basename "notes" is discovered as a case, and the load of "tests/notes.in"
then fails the whole run, so the extra file does affect the success of the
repository load. -/
theorem c8_counterexample :
    discover_cases [.ok (some "case1.in"), .ok (some "case1.out"),
      .ok (some "notes.txt")] = .ok ["case1", "case1", "notes"]
    ∧ itertools_unique ["case1", "case1", "notes"] = ["case1", "notes"]
    ∧ (test_from_configuration pyConfig strayFileWorld).1 =
      .err "No such file or directory"
    ∧ ∀ cr, (test_from_configuration pyConfig strayFileWorld).1 ≠ .ok cr := by
  refine ⟨by decide, by decide, by decide, ?_⟩
  intro cr hcr
  rw [show (test_from_configuration pyConfig strayFileWorld).1 =
      .err "No such file or directory" from by decide] at hcr
  cases hcr

lemma stripExtAux_of_no_dot (cs : List Char) (h : '.' ∉ cs) :
    stripExtAux cs = none := by
  induction cs with
  | nil => rfl
  | cons c rest ih =>
    have hc : c ≠ '.' := fun hcc => h (hcc ▸ List.mem_cons_self c rest)
    have hrest : '.' ∉ rest := fun hm => h (List.mem_cons_of_mem _ hm)
    rw [stripExtAux, ih hrest]
    cases rest with
    | nil =>
      intro d tail hcd hnil
      cases hnil
    | cons d rest2 => simp [hc]

/-- C8 amended: fixture-file discovery strips the final extension of every
successfully listed file — a file with an extension always contributes its
basename as a discovered case (so a stray "notes.txt" contributes "notes",
whose `.in`/`.out` reads are then required); only a file with no
extension (no dot in its name) is ignored. -/
theorem c8_amended (names : List String) (f : String)
    (hnodot : '.' ∉ f.data) :
    discover_cases (names.map (fun nm => .ok (some nm))) =
      .ok (names.filterMap strip_extension)
    ∧ strip_extension f = none := by
  constructor
  · induction names with
    | nil => rfl
    | cons a rest ih =>
      simp only [List.map, discover_cases, List.filterMap_cons, ih]
      cases hsa : strip_extension a <;> simp [hsa]
  · unfold strip_extension
    rw [stripExtAux_of_no_dot f.data hnodot]
    rfl

/-- Witness for `c8_amended` at a concrete directory listing: "a.in"
contributes case "a", the stray "notes.txt" contributes case "notes", and
the extensionless "README" is ignored. -/
theorem c8_witness :
    discover_cases [.ok (some "a.in"), .ok (some "notes.txt"),
      .ok (some "README")] = .ok ["a", "notes"]
    ∧ strip_extension "README" = none :=
  c8_amended ["a.in", "notes.txt", "README"] "README" (by decide)

end Stipulate
